import Mathlib

/-!
Predictive-Maintenance-System: median-threshold predictor and its handlers

A shallow embedding of `utils/function.go`, `services/prediction_service.go`
and `models/models.go`.

Modelling conventions.

* A `float64` sensor value or probability is the rational number (`ℚ`) it
  denotes; comparing two of them is exact.  `calculateMedian` and
  `PredictMaintenance` take the one sum and the one quotient of the even
  branch as exact too; `calculateMedianFP` and `PredictMaintenanceFP` are the
  same two functions with that addition and that division left as parameters,
  so that what is proved of them holds whatever the rounding.
* `time.Time` is an instant counted in nanoseconds (`Int`), `time.Duration`
  a number of nanoseconds.
* Go's slice indexing panics outside `0 ≤ i < len`; here it returns `Option`
  and the panic is propagated as `none` / `Outcome.panic`.
* The database behind `db.DB` is four tables held as lists.  Whether a call to
  the store fails, the UUID drawn by a `BeforeCreate` hook and the clock reads
  are inputs of the operation that performs them.
* `models.go` declares `EquipmentID` of `MaintenanceLog`, `Sensor` and
  `Prediction` a foreign key to `Equipment`, and `ConnectDb` migrates the
  tables with the default settings, which create these constraints without a
  cascade: the store refuses to delete an equipment row that a row of a
  dependent table references.
* The `Equipment` association field of `Sensor`, `MaintenanceLog` and
  `Prediction` is not a column and is left out of the records.
-/

namespace PredictiveMaintenance

/-! ## models/models.go -/

/-- An instant, in nanoseconds counted from the zero `time.Time`. -/
abbrev Time := Int

/-- A `time.Duration`, in nanoseconds. -/
abbrev Duration := Int

/-- The constant `time.Nanosecond`. -/
def Nanosecond : Duration := 1
/-- The constant `time.Microsecond`. -/
def Microsecond : Duration := 1000 * Nanosecond
/-- The constant `time.Millisecond`. -/
def Millisecond : Duration := 1000 * Microsecond
/-- The constant `time.Second`. -/
def Second : Duration := 1000 * Millisecond
/-- The constant `time.Minute`. -/
def Minute : Duration := 60 * Second
/-- The constant `time.Hour`. -/
def Hour : Duration := 60 * Minute

/-- The method `Time.Add`. -/
def Time.Add (t : Time) (d : Duration) : Time := t + d

/-- The struct `models.Equipment`. -/
structure Equipment where
  ID : String
  Name : String
  Type_ : String
  CreatedAt : Time
  UpdatedAt : Time
  deriving DecidableEq, Repr

/-- The struct `models.Sensor`. -/
structure Sensor where
  ID : String
  EquipmentID : String
  Type_ : String
  Value : ℚ
  CreatedAt : Time
  UpdatedAt : Time
  deriving DecidableEq, Repr

/-- The struct `models.MaintenanceLog`. -/
structure MaintenanceLog where
  ID : String
  EquipmentID : String
  Date : Time
  Description : String
  deriving DecidableEq, Repr

/-- The struct `models.Prediction`. -/
structure Prediction where
  ID : String
  EquipmentID : String
  PredictedFailureDate : Time
  FailureProbability : ℚ
  CreatedAt : Time
  UpdatedAt : Time
  deriving DecidableEq, Repr

/-! ## db/db.go -/

/-- The tables migrated by `ConnectDb`, each as the list of its rows. -/
structure Store where
  equipments : List Equipment
  maintenanceLogs : List MaintenanceLog
  sensors : List Sensor
  predictions : List Prediction
  deriving DecidableEq, Repr

/-! ## utils/function.go -/

/-- The result of a Go call returning `(value, error)` that may also panic. -/
inductive Outcome (α : Type) where
  | ok (value : α)
  | err (msg : String)
  | panic
  deriving DecidableEq, Repr

/-- Slice indexing `values[i]` with a Go `int` index: `none` stands for the
index-out-of-range panic. -/
def index (values : List ℚ) (i : Int) : Option ℚ :=
  if i < 0 then none else values[i.toNat]?

/-- The library call `sort.Float64s`: the values in increasing order.  The
order on the values is total, so every sorting algorithm returns this list
(`eq_sortedValues` below). -/
def sortFloat64s (values : List ℚ) : List ℚ :=
  values.insertionSort (· ≤ ·)

/-- The function `calculateMedian`. -/
def calculateMedian (sensors : List Sensor) : Option ℚ :=
  let values := sensors.foldl (fun values sensor => values ++ [sensor.Value]) []
  let values := sortFloat64s values
  let n : Int := values.length
  if n % 2 = 0 then
    match index values (n / 2 - 1), index values (n / 2) with
    | some a, some b => some ((a + b) / 2)
    | _, _ => none
  else
    index values (n / 2)

/-- What `PredictMaintenance` reads from outside the store: the error of the
sensor query, `time.Now()`, the UUID and the timestamp the `Create` call gives
the new row, and the error of that `Create`. -/
structure PredictEnv where
  findErr : Option String
  now : Time
  newID : String
  createdAt : Time
  createErr : Option String
  deriving DecidableEq, Repr

/-- The query `db.DB.Where("equipment_id = ?", equipmentId).Find(&sensors)`: a
store error, or the sensor rows of that equipment (possibly none). -/
def findSensors (st : Store) (err : Option String) (equipmentId : String) :
    Except String (List Sensor) :=
  match err with
  | some e => .error e
  | none => .ok (st.sensors.filter (fun s => s.EquipmentID == equipmentId))

/-- A successful `db.DB.Create(&prediction)`: the `BeforeCreate` hook sets the
ID, the timestamps still zero are set to the time of the call, and the row is
appended to its table. -/
def createPrediction (st : Store) (newID : String) (createdAt : Time) (prediction : Prediction) :
    Prediction × Store :=
  let prediction : Prediction :=
    { prediction with
      ID := newID,
      CreatedAt := if prediction.CreatedAt = 0 then createdAt else prediction.CreatedAt,
      UpdatedAt := if prediction.UpdatedAt = 0 then createdAt else prediction.UpdatedAt }
  (prediction, { st with predictions := st.predictions ++ [prediction] })

/-- The function `PredictMaintenance`: the returned `(*Prediction, error)` and
the store afterwards. -/
def PredictMaintenance (st : Store) (env : PredictEnv) (equipmentId : String) :
    Outcome Prediction × Store :=
  match findSensors st env.findErr equipmentId with
  | .error err => (.err err, st)
  | .ok sensors =>
    if sensors.length = 0 then
      (.err ("no sensor data available for equipment " ++ equipmentId), st)
    else
      match calculateMedian sensors with
      | none => (.panic, st)
      | some medianValue =>
        let probability : ℚ := if medianValue > 70 then 0.8 else 0
        let prediction : Prediction :=
          { ID := "",
            EquipmentID := equipmentId,
            PredictedFailureDate := Time.Add env.now (30 * Hour),
            FailureProbability := probability,
            CreatedAt := 0,
            UpdatedAt := 0 }
        match env.createErr with
        | some err => (.err err, st)
        | none =>
          let (prediction, st) := createPrediction st env.newID env.createdAt prediction
          (.ok prediction, st)

/-- The `float64` addition and division of `calculateMedian`, as functions on
the numbers the operands denote. -/
structure Float64Arith where
  add : ℚ → ℚ → ℚ
  div : ℚ → ℚ → ℚ

/-- Addition and division without rounding. -/
def exactArith : Float64Arith :=
  { add := fun a b => a + b, div := fun a b => a / b }

/-- The function `calculateMedian`, its addition and division being those of
`fp`. -/
def calculateMedianFP (fp : Float64Arith) (sensors : List Sensor) : Option ℚ :=
  let values := sensors.foldl (fun values sensor => values ++ [sensor.Value]) []
  let values := sortFloat64s values
  let n : Int := values.length
  if n % 2 = 0 then
    match index values (n / 2 - 1), index values (n / 2) with
    | some a, some b => some (fp.div (fp.add a b) 2)
    | _, _ => none
  else
    index values (n / 2)

/-- The function `PredictMaintenance`, the median being computed with the
addition and division of `fp`. -/
def PredictMaintenanceFP (fp : Float64Arith) (st : Store) (env : PredictEnv)
    (equipmentId : String) : Outcome Prediction × Store :=
  match findSensors st env.findErr equipmentId with
  | .error err => (.err err, st)
  | .ok sensors =>
    if sensors.length = 0 then
      (.err ("no sensor data available for equipment " ++ equipmentId), st)
    else
      match calculateMedianFP fp sensors with
      | none => (.panic, st)
      | some medianValue =>
        let probability : ℚ := if medianValue > 70 then 0.8 else 0
        let prediction : Prediction :=
          { ID := "",
            EquipmentID := equipmentId,
            PredictedFailureDate := Time.Add env.now (30 * Hour),
            FailureProbability := probability,
            CreatedAt := 0,
            UpdatedAt := 0 }
        match env.createErr with
        | some err => (.err err, st)
        | none =>
          let (prediction, st) := createPrediction st env.newID env.createdAt prediction
          (.ok prediction, st)

/-! ## services/prediction_service.go -/

/-- The JSON payload of a response. -/
inductive Body where
  | message (msg : String)
  | sensor (s : Sensor)
  deriving DecidableEq, Repr

/-- What a handler sends through `c.Status(status).JSON(body)`. -/
structure Response where
  status : Nat
  body : Body
  deriving DecidableEq, Repr

/-- What `AddSensorData` reads from outside the store: the result of
`c.BodyParser`, the UUID and the timestamp the `Create` call gives the new
sensor row, the error of that `Create`, and the inputs of the
`PredictMaintenance` call. -/
structure AddSensorEnv where
  body : Except String Sensor
  newID : String
  createdAt : Time
  createErr : Option String
  predict : PredictEnv

/-- A successful `db.DB.Create(&sensor)`: the `BeforeCreate` hook sets the ID,
the timestamps still zero are set to the time of the call, and the row is
appended to its table. -/
def createSensor (st : Store) (newID : String) (createdAt : Time) (sensor : Sensor) :
    Sensor × Store :=
  let sensor : Sensor :=
    { sensor with
      ID := newID,
      CreatedAt := if sensor.CreatedAt = 0 then createdAt else sensor.CreatedAt,
      UpdatedAt := if sensor.UpdatedAt = 0 then createdAt else sensor.UpdatedAt }
  (sensor, { st with sensors := st.sensors ++ [sensor] })

/-- The handler `AddSensorData`: the response (`none` when the call panics)
and the store afterwards. -/
def AddSensorData (st : Store) (env : AddSensorEnv) : Option Response × Store :=
  match env.body with
  | .error err => (some { status := 400, body := .message err }, st)
  | .ok sensor =>
    match env.createErr with
    | some _ => (some { status := 500, body := .message "Failed to save data" }, st)
    | none =>
      let (sensor, st) := createSensor st env.newID env.createdAt sensor
      match PredictMaintenance st env.predict sensor.EquipmentID with
      | (.panic, st) => (none, st)
      | (.err err, st) => (some { status := 500, body := .message err }, st)
      | (.ok _, st) => (some { status := 201, body := .sensor sensor }, st)

/-- The errors of the four store calls of `DeleteEquipmentData`, in the order
of the calls. -/
structure DeleteEnv where
  firstErr : Option String
  deletePredictionsErr : Option String
  deleteSensorsErr : Option String
  deleteEquipmentErr : Option String
  deriving DecidableEq, Repr

/-- The query `db.DB.Where("id = ?", id).First(&equipment)`: a store error, the
error `record not found` when no row matches, or the first matching row. -/
def firstEquipment (st : Store) (err : Option String) (id : String) : Except String Equipment :=
  match err with
  | some e => .error e
  | none =>
    match st.equipments.find? (fun e => e.ID == id) with
    | none => .error "record not found"
    | some equipment => .ok equipment

/-- Whether a row of a table depending on `Equipment` references the
equipment with this ID. -/
def referenced (st : Store) (equipmentID : String) : Bool :=
  st.maintenanceLogs.any (fun l => l.EquipmentID == equipmentID) ||
  st.sensors.any (fun s => s.EquipmentID == equipmentID) ||
  st.predictions.any (fun p => p.EquipmentID == equipmentID)

/-- The error of the store for a delete that a foreign key forbids. -/
def foreignKeyError : String :=
  "Cannot delete or update a parent row: a foreign key constraint fails"

/-- The call `db.DB.Where("id = ?", id).Delete(&models.Equipment{})`: an error
of the store, the refusal to delete an equipment that is still referenced, or
the store without the equipment rows of that ID. -/
def deleteEquipment (st : Store) (err : Option String) (id : String) : Except String Store :=
  match err with
  | some e => .error e
  | none =>
    if referenced st id then
      .error foreignKeyError
    else
      .ok { st with equipments := st.equipments.filter (fun e => !(e.ID == id)) }

/-- The handler `DeleteEquipmentData` for the path parameter `id`: the response
and the store afterwards. -/
def DeleteEquipmentData (st : Store) (env : DeleteEnv) (id : String) : Response × Store :=
  match firstEquipment st env.firstErr id with
  | .error err =>
    if err = "record not found" then
      ({ status := 404, body := .message "equipment not found" }, st)
    else
      ({ status := 500, body := .message "Failed to get data" }, st)
  | .ok equipment =>
    match env.deletePredictionsErr with
    | some _ => ({ status := 500, body := .message "Failed to delete dependent records" }, st)
    | none =>
      let st :=
        { st with predictions := st.predictions.filter (fun p => !(p.EquipmentID == equipment.ID)) }
      match env.deleteSensorsErr with
      | some _ => ({ status := 500, body := .message "Failed to delete dependent records" }, st)
      | none =>
        let st :=
          { st with sensors := st.sensors.filter (fun s => !(s.EquipmentID == equipment.ID)) }
        match deleteEquipment st env.deleteEquipmentErr equipment.ID with
        | .error err => ({ status := 500, body := .message err }, st)
        | .ok st => ({ status := 200, body := .message "Equipment deleted successfully" }, st)

/-! ## Auxiliary definitions for the statements -/

/-- The values of the readings in ascending order, as `calculateMedian` holds
them after its call to `sort.Float64s`. -/
def sortedValues (sensors : List Sensor) : List ℚ :=
  sortFloat64s (sensors.map Sensor.Value)

/-- Sensor rows of one equipment carrying the given values, in that order. -/
def readings (equipmentId : String) (values : List ℚ) : List Sensor :=
  values.map fun v =>
    { ID := "", EquipmentID := equipmentId, Type_ := "temperature", Value := v,
      CreatedAt := 0, UpdatedAt := 0 }

/-- A store holding only the given sensor rows. -/
def sensorStore (sensors : List Sensor) : Store :=
  { equipments := [], maintenanceLogs := [], sensors := sensors, predictions := [] }

/-- An environment in which no store call fails. -/
def quietEnv : PredictEnv :=
  { findErr := none, now := 1000, newID := "p-1", createdAt := 1001, createErr := none }

/-- A store in which the equipment `e-1` owns one row of each dependent
table. -/
def loggedStore : Store :=
  { equipments := [{ ID := "e-1", Name := "Pump", Type_ := "hydraulic", CreatedAt := 1, UpdatedAt := 1 }],
    maintenanceLogs := [{ ID := "m-1", EquipmentID := "e-1", Date := 2, Description := "oil change" }],
    sensors := [{ ID := "s-1", EquipmentID := "e-1", Type_ := "temperature", Value := 75,
                  CreatedAt := 3, UpdatedAt := 3 }],
    predictions := [{ ID := "p-1", EquipmentID := "e-1", PredictedFailureDate := 108000000000003,
                      FailureProbability := 0.8, CreatedAt := 3, UpdatedAt := 3 }] }

/-- A store in which the equipment `e-1` has a sensor row and a prediction
row but no maintenance log, next to the rows of an equipment `e-2`. -/
def plantStore : Store :=
  { equipments := [{ ID := "e-1", Name := "Pump", Type_ := "hydraulic", CreatedAt := 1, UpdatedAt := 1 },
                   { ID := "e-2", Name := "Fan", Type_ := "cooling", CreatedAt := 1, UpdatedAt := 1 }],
    maintenanceLogs := [{ ID := "m-2", EquipmentID := "e-2", Date := 2, Description := "new belt" }],
    sensors := [{ ID := "s-1", EquipmentID := "e-1", Type_ := "temperature", Value := 75,
                  CreatedAt := 3, UpdatedAt := 3 },
                { ID := "s-2", EquipmentID := "e-2", Type_ := "temperature", Value := 40,
                  CreatedAt := 3, UpdatedAt := 3 }],
    predictions := [{ ID := "p-1", EquipmentID := "e-1", PredictedFailureDate := 108000000000003,
                      FailureProbability := 0.8, CreatedAt := 3, UpdatedAt := 3 }] }

/-- An environment in which no store call of `DeleteEquipmentData` fails. -/
def noDeleteErr : DeleteEnv :=
  { firstErr := none, deletePredictionsErr := none, deleteSensorsErr := none,
    deleteEquipmentErr := none }

/-- The prediction returned for the single reading 70 under `quietEnv`. -/
def boundaryPrediction : Prediction :=
  { ID := "p-1", EquipmentID := "pump", PredictedFailureDate := 108000000001000,
    FailureProbability := 0, CreatedAt := 1001, UpdatedAt := 1001 }

/-- A concrete request: the save succeeds and the sensor query of the
prediction step fails. -/
def failingRequest : AddSensorEnv :=
  { body := .ok { ID := "", EquipmentID := "pump", Type_ := "temperature", Value := 75,
                  CreatedAt := 0, UpdatedAt := 0 },
    newID := "s-1", createdAt := 500, createErr := none,
    predict := { quietEnv with findErr := some "connection lost" } }

/-! # Theorems -/

/-! ## The median -/

/-- The loop of `calculateMedian` collects the `Value` fields in order. -/
theorem foldl_values (sensors : List Sensor) (init : List ℚ) :
    sensors.foldl (fun values sensor => values ++ [sensor.Value]) init
      = init ++ sensors.map Sensor.Value := by
  induction sensors generalizing init with
  | nil => simp
  | cons s rest ih => simp [ih]

theorem length_sortedValues (sensors : List Sensor) :
    (sortedValues sensors).length = sensors.length := by
  simp [sortedValues, sortFloat64s]

theorem index_natCast (values : List ℚ) (k : Nat) : index values (k : Int) = values[k]? := by
  simp [index]

/-- An odd number of readings: the element at position `k` of `2 * k + 1`. -/
theorem calculateMedian_odd (sensors : List Sensor) (k : Nat)
    (h : sensors.length = 2 * k + 1) :
    calculateMedian sensors = (sortedValues sensors)[k]? := by
  have hlen : (sortFloat64s (sensors.map Sensor.Value)).length = 2 * k + 1 := by
    rw [← h]; exact length_sortedValues sensors
  have h1 : ((2 * k + 1 : Nat) : Int) % 2 ≠ 0 := by omega
  have h2 : ((2 * k + 1 : Nat) : Int) / 2 = (k : Int) := by omega
  unfold calculateMedian
  simp only [foldl_values, List.nil_append, hlen, if_neg h1, h2, index_natCast]
  rfl

/-- An even, positive number of readings: the mean of the elements at
positions `k` and `k + 1` of `2 * k + 2`. -/
theorem calculateMedian_even (sensors : List Sensor) (k : Nat)
    (h : sensors.length = 2 * k + 2) :
    calculateMedian sensors =
      match (sortedValues sensors)[k]?, (sortedValues sensors)[k + 1]? with
      | some a, some b => some ((a + b) / 2)
      | _, _ => none := by
  have hlen : (sortFloat64s (sensors.map Sensor.Value)).length = 2 * k + 2 := by
    rw [← h]; exact length_sortedValues sensors
  have h1 : ((2 * k + 2 : Nat) : Int) % 2 = 0 := by omega
  have h2 : ((2 * k + 2 : Nat) : Int) / 2 = ((k + 1 : Nat) : Int) := by omega
  have h3 : ((k + 1 : Nat) : Int) - 1 = (k : Int) := by omega
  unfold calculateMedian
  simp only [foldl_values, List.nil_append, hlen, if_pos h1, h2, h3, index_natCast]
  rfl

/-- On a non-empty list the median is defined: either the count is
`2 * k + 1` and the result is the sorted value at `k`, or the count is
`2 * k + 2` and the result is the mean of the sorted values at `k`, `k + 1`. -/
theorem calculateMedian_cases (sensors : List Sensor) (hne : sensors ≠ []) :
    (∃ k, sensors.length = 2 * k + 1 ∧
      ∃ m, (sortedValues sensors)[k]? = some m ∧ calculateMedian sensors = some m) ∨
    (∃ k, sensors.length = 2 * k + 2 ∧
      ∃ a b, (sortedValues sensors)[k]? = some a ∧ (sortedValues sensors)[k + 1]? = some b ∧
        calculateMedian sensors = some ((a + b) / 2)) := by
  have hpos : 0 < sensors.length := List.length_pos.mpr hne
  have hlen := length_sortedValues sensors
  rcases Nat.even_or_odd' sensors.length with ⟨j, hj | hj⟩
  · right
    obtain ⟨k, rfl⟩ : ∃ k, j = k + 1 := ⟨j - 1, by omega⟩
    have hk : sensors.length = 2 * k + 2 := by omega
    have hk0 : k < (sortedValues sensors).length := by omega
    have hk1 : k + 1 < (sortedValues sensors).length := by omega
    refine ⟨k, hk, (sortedValues sensors)[k], (sortedValues sensors)[k + 1],
      List.getElem?_eq_getElem hk0, List.getElem?_eq_getElem hk1, ?_⟩
    rw [calculateMedian_even sensors k hk, List.getElem?_eq_getElem hk0,
      List.getElem?_eq_getElem hk1]
  · left
    have hk0 : j < (sortedValues sensors).length := by omega
    refine ⟨j, hj, (sortedValues sensors)[j], List.getElem?_eq_getElem hk0, ?_⟩
    rw [calculateMedian_odd sensors j hj, List.getElem?_eq_getElem hk0]

/-- Any ascending arrangement of the values is the one `calculateMedian` sorts
them into. -/
theorem eq_sortedValues (sensors : List Sensor) (s : List ℚ)
    (hs : s.Sorted (· ≤ ·)) (hp : s.Perm (sensors.map Sensor.Value)) :
    s = sortedValues sensors := by
  refine List.eq_of_perm_of_sorted ?_ hs (List.sorted_insertionSort _ _)
  exact hp.trans (List.perm_insertionSort _ _).symm

/-- C1: for a non-empty list of readings, with `s` the values sorted ascending
and `n` their count, `calculateMedian` returns `s[(n-1)/2]` when `n` is odd and
`(s[n/2-1] + s[n/2]) / 2` when `n` is even. -/
theorem calculateMedian_is_median (sensors : List Sensor) (hne : sensors ≠ [])
    (s : List ℚ) (hs : s.Sorted (· ≤ ·)) (hp : s.Perm (sensors.map Sensor.Value)) :
    (s.length % 2 = 1 →
      ∃ m, s[(s.length - 1) / 2]? = some m ∧ calculateMedian sensors = some m) ∧
    (s.length % 2 = 0 →
      ∃ a b, s[s.length / 2 - 1]? = some a ∧ s[s.length / 2]? = some b ∧
        calculateMedian sensors = some ((a + b) / 2)) := by
  have hs' := eq_sortedValues sensors s hs hp
  subst hs'
  have hlen := length_sortedValues sensors
  rcases calculateMedian_cases sensors hne with ⟨k, hk, m, hm, hmed⟩ | ⟨k, hk, a, b, ha, hb, hmed⟩
  · constructor
    · intro _
      have : ((sortedValues sensors).length - 1) / 2 = k := by omega
      rw [this]
      exact ⟨m, hm, hmed⟩
    · intro h; omega
  · constructor
    · intro h; omega
    · intro _
      have h1 : (sortedValues sensors).length / 2 - 1 = k := by omega
      have h2 : (sortedValues sensors).length / 2 = k + 1 := by omega
      rw [h1, h2]
      exact ⟨a, b, ha, hb, hmed⟩

/-- Scenarios 1 and 2: the readings 10, 20, 30 have median 20 and the readings
60, 75, 90, 95 have median 82.5. -/
theorem calculateMedian_is_median_witness :
    calculateMedian (readings "pump" [10, 20, 30]) = some 20 ∧
    calculateMedian (readings "pump" [60, 75, 90, 95]) = some 82.5 := by
  constructor
  · obtain ⟨m, hm, h⟩ :=
      (calculateMedian_is_median (readings "pump" [10, 20, 30]) (by simp [readings])
        [10, 20, 30] (by decide) (by simp [readings])).1 (by rfl)
    simp at hm
    rw [h, ← hm]
  · obtain ⟨a, b, ha, hb, h⟩ :=
      (calculateMedian_is_median (readings "pump" [60, 75, 90, 95]) (by simp [readings])
        [60, 75, 90, 95] (by decide) (by simp [readings])).2 (by rfl)
    simp at ha hb
    rw [h, ← ha, ← hb]
    norm_num

/-- Permuted readings are sorted into the same list of values. -/
theorem sortedValues_perm {sensors₁ sensors₂ : List Sensor} (h : sensors₁.Perm sensors₂) :
    sortedValues sensors₁ = sortedValues sensors₂ := by
  refine eq_sortedValues sensors₂ _ (List.sorted_insertionSort _ _) ?_
  exact (List.perm_insertionSort _ _).trans (h.map _)

/-- The median only depends on the sorted values. -/
theorem calculateMedian_congr {sensors₁ sensors₂ : List Sensor}
    (h : sortedValues sensors₁ = sortedValues sensors₂) :
    calculateMedian sensors₁ = calculateMedian sensors₂ := by
  unfold sortedValues at h
  unfold calculateMedian
  simp only [foldl_values, List.nil_append, h]

/-! ## PredictMaintenance -/

/-- The prediction `PredictMaintenance` builds and stores for a median. -/
theorem PredictMaintenance_ok (st : Store) (env : PredictEnv) (equipmentId : String)
    (sensors : List Sensor) (m : ℚ)
    (hfind : findSensors st env.findErr equipmentId = .ok sensors) (hne : sensors ≠ [])
    (hmed : calculateMedian sensors = some m) (hcreate : env.createErr = none) :
    PredictMaintenance st env equipmentId =
      (.ok { ID := env.newID, EquipmentID := equipmentId,
             PredictedFailureDate := env.now + 30 * Hour,
             FailureProbability := if m > 70 then 0.8 else 0,
             CreatedAt := env.createdAt, UpdatedAt := env.createdAt },
       { st with predictions := st.predictions ++
          [{ ID := env.newID, EquipmentID := equipmentId,
             PredictedFailureDate := env.now + 30 * Hour,
             FailureProbability := if m > 70 then 0.8 else 0,
             CreatedAt := env.createdAt, UpdatedAt := env.createdAt }] }) := by
  have hlen : sensors.length ≠ 0 := by simpa using hne
  simp [PredictMaintenance, hfind, hlen, hmed, hcreate, createPrediction, Time.Add]

/-- A successful call went through every step: the query returned a non-empty
list, its median is defined and the `Create` did not fail. -/
theorem PredictMaintenance_ok_inv (st st' : Store) (env : PredictEnv) (equipmentId : String)
    (p : Prediction) (h : PredictMaintenance st env equipmentId = (.ok p, st')) :
    ∃ sensors m, findSensors st env.findErr equipmentId = .ok sensors ∧ sensors ≠ [] ∧
      calculateMedian sensors = some m ∧ env.createErr = none := by
  unfold PredictMaintenance at h
  cases hfind : findSensors st env.findErr equipmentId with
  | error e => simp [hfind] at h
  | ok sensors =>
    by_cases hlen : sensors.length = 0
    · simp [hfind, hlen] at h
    · cases hmed : calculateMedian sensors with
      | none => simp [hfind, hlen, hmed] at h
      | some m =>
        cases hcreate : env.createErr with
        | some e => simp [hfind, hlen, hmed, hcreate] at h
        | none => exact ⟨sensors, m, rfl, by simpa using hlen, hmed, rfl⟩

/-- The median of a non-empty list is defined. -/
theorem calculateMedian_isSome (sensors : List Sensor) (hne : sensors ≠ []) :
    ∃ m, calculateMedian sensors = some m := by
  rcases calculateMedian_cases sensors hne with ⟨_, _, m, _, h⟩ | ⟨_, _, a, b, _, _, h⟩
  · exact ⟨m, h⟩
  · exact ⟨_, h⟩

/-- A call that reports an error leaves the store as it was. -/
theorem PredictMaintenance_err_store (st : Store) (env : PredictEnv) (equipmentId : String)
    (msg : String) (h : (PredictMaintenance st env equipmentId).1 = .err msg) :
    (PredictMaintenance st env equipmentId).2 = st := by
  unfold PredictMaintenance at h ⊢
  cases hfind : findSensors st env.findErr equipmentId with
  | error e => simp
  | ok sensors =>
    by_cases hlen : sensors.length = 0
    · simp [hlen]
    · cases hmed : calculateMedian sensors with
      | none => simp [hlen, hmed]
      | some m =>
        cases hcreate : env.createErr with
        | some e => simp [hlen, hmed]
        | none => simp [hfind, hlen, hmed, hcreate] at h

/-- `PredictMaintenance` does not panic. -/
theorem PredictMaintenance_ne_panic (st : Store) (env : PredictEnv) (equipmentId : String) :
    (PredictMaintenance st env equipmentId).1 ≠ .panic := by
  unfold PredictMaintenance
  cases hfind : findSensors st env.findErr equipmentId with
  | error e => simp
  | ok sensors =>
    by_cases hlen : sensors.length = 0
    · simp [hlen]
    · obtain ⟨m, hm⟩ := calculateMedian_isSome sensors (by simpa using hlen)
      cases hcreate : env.createErr with
      | some e => simp [hlen, hm]
      | none => simp [hlen, hm]

/-! ## The threshold rule under any rounding -/

/-- With exact addition and division `calculateMedianFP` is `calculateMedian`. -/
theorem calculateMedianFP_exactArith (sensors : List Sensor) :
    calculateMedianFP exactArith sensors = calculateMedian sensors := rfl

/-- With exact addition and division `PredictMaintenanceFP` is
`PredictMaintenance`. -/
theorem PredictMaintenanceFP_exactArith (st : Store) (env : PredictEnv) (equipmentId : String) :
    PredictMaintenanceFP exactArith st env equipmentId = PredictMaintenance st env equipmentId :=
  rfl

/-- An odd number of readings: no arithmetic is done, the result is the sorted
value at position `k` of `2 * k + 1`. -/
theorem calculateMedianFP_odd (fp : Float64Arith) (sensors : List Sensor) (k : Nat)
    (h : sensors.length = 2 * k + 1) :
    calculateMedianFP fp sensors = (sortedValues sensors)[k]? := by
  have hlen : (sortFloat64s (sensors.map Sensor.Value)).length = 2 * k + 1 := by
    rw [← h]; exact length_sortedValues sensors
  have h1 : ((2 * k + 1 : Nat) : Int) % 2 ≠ 0 := by omega
  have h2 : ((2 * k + 1 : Nat) : Int) / 2 = (k : Int) := by omega
  unfold calculateMedianFP
  simp only [foldl_values, List.nil_append, hlen, if_neg h1, h2, index_natCast]
  rfl

/-- An even, positive number of readings: the sum of the sorted values at
positions `k` and `k + 1` of `2 * k + 2`, divided by two, in the arithmetic
`fp`. -/
theorem calculateMedianFP_even (fp : Float64Arith) (sensors : List Sensor) (k : Nat)
    (h : sensors.length = 2 * k + 2) :
    calculateMedianFP fp sensors =
      match (sortedValues sensors)[k]?, (sortedValues sensors)[k + 1]? with
      | some a, some b => some (fp.div (fp.add a b) 2)
      | _, _ => none := by
  have hlen : (sortFloat64s (sensors.map Sensor.Value)).length = 2 * k + 2 := by
    rw [← h]; exact length_sortedValues sensors
  have h1 : ((2 * k + 2 : Nat) : Int) % 2 = 0 := by omega
  have h2 : ((2 * k + 2 : Nat) : Int) / 2 = ((k + 1 : Nat) : Int) := by omega
  have h3 : ((k + 1 : Nat) : Int) - 1 = (k : Int) := by omega
  unfold calculateMedianFP
  simp only [foldl_values, List.nil_append, hlen, if_pos h1, h2, h3, index_natCast]
  rfl

/-- The prediction `PredictMaintenanceFP` builds and stores for a median. -/
theorem PredictMaintenanceFP_ok (fp : Float64Arith) (st : Store) (env : PredictEnv)
    (equipmentId : String) (sensors : List Sensor) (m : ℚ)
    (hfind : findSensors st env.findErr equipmentId = .ok sensors) (hne : sensors ≠ [])
    (hmed : calculateMedianFP fp sensors = some m) (hcreate : env.createErr = none) :
    PredictMaintenanceFP fp st env equipmentId =
      (.ok { ID := env.newID, EquipmentID := equipmentId,
             PredictedFailureDate := env.now + 30 * Hour,
             FailureProbability := if m > 70 then 0.8 else 0,
             CreatedAt := env.createdAt, UpdatedAt := env.createdAt },
       { st with predictions := st.predictions ++
          [{ ID := env.newID, EquipmentID := equipmentId,
             PredictedFailureDate := env.now + 30 * Hour,
             FailureProbability := if m > 70 then 0.8 else 0,
             CreatedAt := env.createdAt, UpdatedAt := env.createdAt }] }) := by
  have hlen : sensors.length ≠ 0 := by simpa using hne
  simp [PredictMaintenanceFP, hfind, hlen, hmed, hcreate, createPrediction, Time.Add]

/-- A successful call of `PredictMaintenanceFP` stored the probability of some
median it computed. -/
theorem PredictMaintenanceFP_ok_inv (fp : Float64Arith) (st st' : Store) (env : PredictEnv)
    (equipmentId : String) (p : Prediction)
    (h : PredictMaintenanceFP fp st env equipmentId = (.ok p, st')) :
    ∃ m : ℚ, p.FailureProbability = if m > 70 then 0.8 else 0 := by
  unfold PredictMaintenanceFP at h
  cases hfind : findSensors st env.findErr equipmentId with
  | error e => simp [hfind] at h
  | ok sensors =>
    by_cases hlen : sensors.length = 0
    · simp [hfind, hlen] at h
    · cases hmed : calculateMedianFP fp sensors with
      | none => simp [hfind, hlen, hmed] at h
      | some m =>
        cases hcreate : env.createErr with
        | some e => simp [hfind, hlen, hmed, hcreate] at h
        | none =>
          simp only [hfind, hlen, hmed, hcreate, createPrediction, if_false, Prod.mk.injEq,
            Outcome.ok.injEq] at h
          exact ⟨m, by rw [← h.1]⟩

/-- C2: with at least one reading and no store failure `PredictMaintenance`
succeeds, and the stored probability is 0.8 when the median of the readings is
strictly greater than 70 and 0 otherwise.  The median is read off any ascending
arrangement `s` of the values: the middle value for an odd count, the sum of
the two central values divided by two, in the arithmetic of the code, for an
even count.  A median of exactly 70, as for the single reading 70, gives 0, and
no successful call stores a probability other than 0 and 0.8. -/
theorem PredictMaintenanceFP_probability (fp : Float64Arith) (st : Store) (env : PredictEnv)
    (equipmentId : String) (sensors : List Sensor)
    (hfind : findSensors st env.findErr equipmentId = .ok sensors) (hne : sensors ≠ [])
    (hcreate : env.createErr = none)
    (s : List ℚ) (hs : s.Sorted (· ≤ ·)) (hp : s.Perm (sensors.map Sensor.Value)) :
    (∃ p st', PredictMaintenanceFP fp st env equipmentId = (.ok p, st') ∧
      (s.length % 2 = 1 →
        ∃ m, s[(s.length - 1) / 2]? = some m ∧
          p.FailureProbability = (if m > 70 then 0.8 else 0) ∧
          (m = 70 → p.FailureProbability = 0)) ∧
      (s.length % 2 = 0 →
        ∃ a b, s[s.length / 2 - 1]? = some a ∧ s[s.length / 2]? = some b ∧
          p.FailureProbability = (if fp.div (fp.add a b) 2 > 70 then 0.8 else 0) ∧
          (fp.div (fp.add a b) 2 = 70 → p.FailureProbability = 0)) ∧
      (s = [70] → p.FailureProbability = 0)) ∧
    (∀ (st₀ st₁ : Store) (env₀ : PredictEnv) (id₀ : String) (p₀ : Prediction),
      PredictMaintenanceFP fp st₀ env₀ id₀ = (.ok p₀, st₁) →
      p₀.FailureProbability = 0 ∨ p₀.FailureProbability = 0.8) := by
  have hs' := eq_sortedValues sensors s hs hp
  subst hs'
  have hlen := length_sortedValues sensors
  have hpos : 0 < sensors.length := List.length_pos.mpr hne
  constructor
  · rcases Nat.even_or_odd' sensors.length with ⟨j, hj | hj⟩
    · obtain ⟨k, rfl⟩ : ∃ k, j = k + 1 := ⟨j - 1, by omega⟩
      have hk : sensors.length = 2 * k + 2 := by omega
      have hk0 : k < (sortedValues sensors).length := by omega
      have hk1 : k + 1 < (sortedValues sensors).length := by omega
      have ha := List.getElem?_eq_getElem hk0
      have hb := List.getElem?_eq_getElem hk1
      have hmed : calculateMedianFP fp sensors =
          some (fp.div (fp.add (sortedValues sensors)[k] (sortedValues sensors)[k + 1]) 2) := by
        rw [calculateMedianFP_even fp sensors k hk, ha, hb]
      refine ⟨_, _, PredictMaintenanceFP_ok fp st env equipmentId sensors _ hfind hne hmed hcreate,
        ?_, ?_, ?_⟩
      · intro h; omega
      · intro _
        have h1 : (sortedValues sensors).length / 2 - 1 = k := by omega
        have h2 : (sortedValues sensors).length / 2 = k + 1 := by omega
        rw [h1, h2]
        refine ⟨_, _, ha, hb, rfl, ?_⟩
        intro h70
        simp [h70]
      · intro h1
        rw [h1] at hlen
        simp at hlen
        omega
    · have hk0 : j < (sortedValues sensors).length := by omega
      have hm := List.getElem?_eq_getElem hk0
      have hmed : calculateMedianFP fp sensors = some (sortedValues sensors)[j] := by
        rw [calculateMedianFP_odd fp sensors j hj, hm]
      refine ⟨_, _, PredictMaintenanceFP_ok fp st env equipmentId sensors _ hfind hne hmed hcreate,
        ?_, ?_, ?_⟩
      · intro _
        have h1 : ((sortedValues sensors).length - 1) / 2 = j := by omega
        rw [h1]
        refine ⟨_, hm, rfl, ?_⟩
        intro h70
        simp [h70]
      · intro h; omega
      · intro h1
        have hj0 : j = 0 := by
          rw [h1] at hlen
          simp at hlen
          omega
        subst hj0
        have h70 : (sortedValues sensors)[0] = 70 := by simp [h1]
        simp [h70]
  · intro st₀ st₁ env₀ id₀ p₀ h
    obtain ⟨m, hm⟩ := PredictMaintenanceFP_ok_inv fp st₀ st₁ env₀ id₀ p₀ h
    rw [hm]
    by_cases h70 : m > 70
    · right; simp [h70]
    · left; simp [h70]

/-- Scenarios 3 and 2: the single reading 70 is stored with probability 0 and
the readings 60, 75, 90, 95, of median 82.5, with probability 0.8. -/
theorem PredictMaintenanceFP_probability_witness :
    (∃ p st', PredictMaintenanceFP exactArith (sensorStore (readings "pump" [70])) quietEnv "pump"
        = (.ok p, st') ∧ p.FailureProbability = 0) ∧
    (∃ p st', PredictMaintenanceFP exactArith (sensorStore (readings "pump" [60, 75, 90, 95]))
        quietEnv "pump" = (.ok p, st') ∧ p.FailureProbability = 0.8) := by
  constructor
  · obtain ⟨⟨p, st', h, _, _, h70⟩, _⟩ :=
      PredictMaintenanceFP_probability exactArith (sensorStore (readings "pump" [70])) quietEnv
        "pump" (readings "pump" [70]) (by simp [findSensors, sensorStore, quietEnv, readings])
        (by simp [readings]) rfl [70] (by decide) (by simp [readings])
    exact ⟨p, st', h, h70 rfl⟩
  · obtain ⟨⟨p, st', h, _, heven, _⟩, _⟩ :=
      PredictMaintenanceFP_probability exactArith (sensorStore (readings "pump" [60, 75, 90, 95]))
        quietEnv "pump" (readings "pump" [60, 75, 90, 95])
        (by simp [findSensors, sensorStore, quietEnv, readings])
        (by simp [readings]) rfl [60, 75, 90, 95] (by decide) (by simp [readings])
    obtain ⟨a, b, ha, hb, hprob, _⟩ := heven (by rfl)
    simp at ha hb
    refine ⟨p, st', h, ?_⟩
    rw [hprob, ← ha, ← hb]
    norm_num [exactArith]

/-! ## PredictMaintenance, continued -/

/-- C3: when the sensor query succeeds with zero readings, the call returns an
error and no prediction, and the store (so its prediction table) is unchanged. -/
theorem PredictMaintenance_no_data (st : Store) (env : PredictEnv) (equipmentId : String)
    (hfind : findSensors st env.findErr equipmentId = .ok []) :
    PredictMaintenance st env equipmentId =
        (.err ("no sensor data available for equipment " ++ equipmentId), st) ∧
    (PredictMaintenance st env equipmentId).2.predictions = st.predictions := by
  simp [PredictMaintenance, hfind]

/-- Scenario 4: an equipment without readings gets the no-data error and no
prediction row. -/
theorem PredictMaintenance_no_data_witness :
    PredictMaintenance (sensorStore (readings "pump" [70])) quietEnv "fan" =
        (.err "no sensor data available for equipment fan", sensorStore (readings "pump" [70])) ∧
    (PredictMaintenance (sensorStore (readings "pump" [70])) quietEnv "fan").2.predictions = [] :=
  PredictMaintenance_no_data (sensorStore (readings "pump" [70])) quietEnv "fan"
    (by simp [findSensors, sensorStore, quietEnv, readings])

/-- C4: on a non-empty list of readings and any permutation of it,
`calculateMedian` returns the same (defined) value, and so `PredictMaintenance`
returns the same result whichever of the two orders the store yields. -/
theorem calculateMedian_perm (sensors₁ sensors₂ : List Sensor) (hne : sensors₁ ≠ [])
    (hperm : sensors₁.Perm sensors₂) :
    calculateMedian sensors₁ = calculateMedian sensors₂ ∧
    (∃ m, calculateMedian sensors₁ = some m) ∧
    (∀ (st₁ st₂ : Store) (env : PredictEnv) (equipmentId : String),
      findSensors st₁ env.findErr equipmentId = .ok sensors₁ →
      findSensors st₂ env.findErr equipmentId = .ok sensors₂ →
      (PredictMaintenance st₁ env equipmentId).1 = (PredictMaintenance st₂ env equipmentId).1) := by
  have heq : calculateMedian sensors₁ = calculateMedian sensors₂ :=
    calculateMedian_congr (sortedValues_perm hperm)
  obtain ⟨m, hm⟩ := calculateMedian_isSome sensors₁ hne
  refine ⟨heq, ⟨m, hm⟩, ?_⟩
  intro st₁ st₂ env equipmentId h₁ h₂
  have hne₂ : sensors₂ ≠ [] := fun h => hne (by simpa [h] using hperm)
  have hl₁ : sensors₁.length ≠ 0 := by simpa using hne
  have hl₂ : sensors₂.length ≠ 0 := by simpa using hne₂
  have hm₂ : calculateMedian sensors₂ = some m := heq ▸ hm
  cases hcreate : env.createErr with
  | some e => simp [PredictMaintenance, h₁, h₂, hl₁, hl₂, hm, hm₂, hcreate]
  | none =>
    rw [PredictMaintenance_ok st₁ env equipmentId sensors₁ m h₁ hne hm hcreate,
      PredictMaintenance_ok st₂ env equipmentId sensors₂ m h₂ hne₂ hm₂ hcreate]

/-- The readings 90, 60, 70 and their sorted arrangement have the same median 70. -/
theorem calculateMedian_perm_witness :
    calculateMedian (readings "pump" [90, 60, 70]) = calculateMedian (readings "pump" [60, 70, 90]) ∧
    calculateMedian (readings "pump" [90, 60, 70]) = some 70 := by
  have h := calculateMedian_perm (readings "pump" [90, 60, 70]) (readings "pump" [60, 70, 90])
    (by simp [readings]) (by decide)
  exact ⟨h.1, by decide⟩

/-- C5: a successful call made at time `env.now` produces a prediction whose
`PredictedFailureDate` is `env.now` plus 30 hours (thirty times 3600 seconds of
a thousand million nanoseconds), whatever the readings and the probability. -/
theorem PredictMaintenance_horizon (st st' : Store) (env : PredictEnv) (equipmentId : String)
    (p : Prediction) (h : PredictMaintenance st env equipmentId = (.ok p, st')) :
    p.PredictedFailureDate = Time.Add env.now (30 * Hour) ∧
    p.PredictedFailureDate = env.now + 30 * 3600 * 1000000000 := by
  obtain ⟨sensors, m, hf, hn, hm, hc⟩ := PredictMaintenance_ok_inv st st' env equipmentId p h
  rw [PredictMaintenance_ok st env equipmentId sensors m hf hn hm hc] at h
  simp only [Prod.mk.injEq, Outcome.ok.injEq] at h
  rw [← h.1]
  constructor
  · rfl
  · simp [Hour, Minute, Second, Millisecond, Microsecond, Nanosecond]

/-- C6: a successful call appends exactly one row, the returned prediction
carrying the given equipment ID, to the prediction table and changes no other
table. -/
theorem PredictMaintenance_frame (st st' : Store) (env : PredictEnv) (equipmentId : String)
    (p : Prediction) (h : PredictMaintenance st env equipmentId = (.ok p, st')) :
    st'.predictions = st.predictions ++ [p] ∧ p.EquipmentID = equipmentId ∧
    st'.sensors = st.sensors ∧ st'.equipments = st.equipments ∧
    st'.maintenanceLogs = st.maintenanceLogs := by
  obtain ⟨sensors, m, hf, hn, hm, hc⟩ := PredictMaintenance_ok_inv st st' env equipmentId p h
  rw [PredictMaintenance_ok st env equipmentId sensors m hf hn hm hc] at h
  simp only [Prod.mk.injEq, Outcome.ok.injEq] at h
  obtain ⟨hp, hst⟩ := h
  subst hp hst
  simp

/-- The call on the single reading 70 succeeds with `boundaryPrediction`. -/
theorem PredictMaintenance_boundary :
    PredictMaintenance (sensorStore (readings "pump" [70])) quietEnv "pump" =
      (.ok boundaryPrediction,
       { sensorStore (readings "pump" [70]) with predictions := [boundaryPrediction] }) := by
  rw [PredictMaintenance_ok (sensorStore (readings "pump" [70])) quietEnv "pump"
    (readings "pump" [70]) 70 (by simp [findSensors, sensorStore, quietEnv, readings])
    (by simp [readings]) (by decide) rfl]
  simp [boundaryPrediction, quietEnv, sensorStore, Hour, Minute, Second, Millisecond,
    Microsecond, Nanosecond]

/-- The call made at instant 1000 forecasts the instant 1000 plus 30 hours. -/
theorem PredictMaintenance_horizon_witness :
    boundaryPrediction.PredictedFailureDate = Time.Add quietEnv.now (30 * Hour) ∧
    boundaryPrediction.PredictedFailureDate = quietEnv.now + 30 * 3600 * 1000000000 :=
  PredictMaintenance_horizon _ _ quietEnv "pump" boundaryPrediction PredictMaintenance_boundary

/-- The call on an empty prediction table leaves exactly the returned row in
it and keeps the sensor table. -/
theorem PredictMaintenance_frame_witness :
    (PredictMaintenance (sensorStore (readings "pump" [70])) quietEnv "pump").2.predictions
        = (sensorStore (readings "pump" [70])).predictions ++ [boundaryPrediction] ∧
    boundaryPrediction.EquipmentID = "pump" ∧
    (PredictMaintenance (sensorStore (readings "pump" [70])) quietEnv "pump").2.sensors
        = (sensorStore (readings "pump" [70])).sensors := by
  have h := PredictMaintenance_frame _ _ quietEnv "pump" boundaryPrediction
    PredictMaintenance_boundary
  rw [PredictMaintenance_boundary]
  exact ⟨h.1, h.2.1, h.2.2.1⟩

/-- C7: when the sensor save succeeds and the following `PredictMaintenance`
call returns an error, `AddSensorData` answers 500 with that error and the
saved reading is still in the sensor table. -/
theorem AddSensorData_prediction_failure (st : Store) (env : AddSensorEnv) (sensor : Sensor)
    (msg : String) (hbody : env.body = .ok sensor) (hsave : env.createErr = none)
    (hpred : (PredictMaintenance (createSensor st env.newID env.createdAt sensor).2 env.predict
      (createSensor st env.newID env.createdAt sensor).1.EquipmentID).1 = .err msg) :
    (AddSensorData st env).1 = some { status := 500, body := .message msg } ∧
    (AddSensorData st env).2.sensors =
      st.sensors ++ [(createSensor st env.newID env.createdAt sensor).1] ∧
    (createSensor st env.newID env.createdAt sensor).1 ∈ (AddSensorData st env).2.sensors := by
  have hstore := PredictMaintenance_err_store _ _ _ msg hpred
  have hres : AddSensorData st env =
      (some { status := 500, body := .message msg },
        (createSensor st env.newID env.createdAt sensor).2) := by
    unfold AddSensorData
    simp only [hbody, hsave]
    generalize hcall : PredictMaintenance (createSensor st env.newID env.createdAt sensor).2
      env.predict (createSensor st env.newID env.createdAt sensor).1.EquipmentID = res at hpred hstore
    obtain ⟨out, st₂⟩ := res
    simp only at hpred hstore
    subst hpred hstore
    rfl
  rw [hres]
  simp [createSensor]

/-- A request whose prediction step loses the connection is answered 500 and
its reading stays stored. -/
theorem AddSensorData_prediction_failure_witness :
    (AddSensorData (sensorStore []) failingRequest).1 =
      some { status := 500, body := .message "connection lost" } ∧
    (AddSensorData (sensorStore []) failingRequest).2.sensors =
      [{ ID := "s-1", EquipmentID := "pump", Type_ := "temperature", Value := 75,
         CreatedAt := 500, UpdatedAt := 500 }] := by
  have h := AddSensorData_prediction_failure (sensorStore []) failingRequest
    { ID := "", EquipmentID := "pump", Type_ := "temperature", Value := 75,
      CreatedAt := 0, UpdatedAt := 0 } "connection lost" rfl rfl
    (by simp [PredictMaintenance, findSensors, failingRequest])
  refine ⟨h.1, ?_⟩
  rw [h.2.1]
  simp [sensorStore, createSensor, failingRequest]

/-- A value at some position of the sorted values is one of the readings. -/
theorem mem_of_sortedValues_getElem? (sensors : List Sensor) (k : Nat) (a : ℚ)
    (h : (sortedValues sensors)[k]? = some a) : a ∈ sensors.map Sensor.Value := by
  have hmem : a ∈ sortedValues sensors := List.getElem?_mem h
  exact (List.perm_insertionSort _ _).mem_iff.mp hmem

/-- A non-empty list of rationals has a smallest and a largest element. -/
theorem exists_min_max (values : List ℚ) (hne : values ≠ []) :
    ∃ lo ∈ values, ∃ hi ∈ values, ∀ v ∈ values, lo ≤ v ∧ v ≤ hi := by
  induction values with
  | nil => exact absurd rfl hne
  | cons x rest ih =>
    by_cases hrest : rest = []
    · subst hrest
      exact ⟨x, by simp, x, by simp, by simp⟩
    · obtain ⟨lo, hlo, hi, hhi, hall⟩ := ih hrest
      refine ⟨min x lo, ?_, max x hi, ?_, ?_⟩
      · rcases min_choice x lo with h | h <;> simp [h, hlo]
      · rcases max_choice x hi with h | h <;> simp [h, hhi]
      · intro v hv
        rcases List.mem_cons.mp hv with rfl | hv
        · exact ⟨min_le_left _ _, le_max_left _ _⟩
        · exact ⟨(min_le_right _ _).trans (hall v hv).1, (hall v hv).2.trans (le_max_right _ _)⟩

/-- The median is at least any lower bound of the readings. -/
theorem calculateMedian_ge (sensors : List Sensor) (hne : sensors ≠ []) (lo : ℚ)
    (hlo : ∀ v ∈ sensors.map Sensor.Value, lo ≤ v) :
    ∃ m, calculateMedian sensors = some m ∧ lo ≤ m := by
  rcases calculateMedian_cases sensors hne with ⟨k, _, m, hm, h⟩ | ⟨k, _, a, b, ha, hb, h⟩
  · exact ⟨m, h, hlo m (mem_of_sortedValues_getElem? sensors k m hm)⟩
  · have := hlo a (mem_of_sortedValues_getElem? sensors k a ha)
    have := hlo b (mem_of_sortedValues_getElem? sensors (k + 1) b hb)
    exact ⟨_, h, by linarith⟩

/-- The median is at most any upper bound of the readings. -/
theorem calculateMedian_le (sensors : List Sensor) (hne : sensors ≠ []) (hi : ℚ)
    (hhi : ∀ v ∈ sensors.map Sensor.Value, v ≤ hi) :
    ∃ m, calculateMedian sensors = some m ∧ m ≤ hi := by
  rcases calculateMedian_cases sensors hne with ⟨k, _, m, hm, h⟩ | ⟨k, _, a, b, ha, hb, h⟩
  · exact ⟨m, h, hhi m (mem_of_sortedValues_getElem? sensors k m hm)⟩
  · have := hhi a (mem_of_sortedValues_getElem? sensors k a ha)
    have := hhi b (mem_of_sortedValues_getElem? sensors (k + 1) b hb)
    exact ⟨_, h, by linarith⟩

/-- The median exceeds any strict lower bound of the readings. -/
theorem calculateMedian_gt (sensors : List Sensor) (hne : sensors ≠ []) (lo : ℚ)
    (hlo : ∀ v ∈ sensors.map Sensor.Value, lo < v) :
    ∃ m, calculateMedian sensors = some m ∧ lo < m := by
  rcases calculateMedian_cases sensors hne with ⟨k, _, m, hm, h⟩ | ⟨k, _, a, b, ha, hb, h⟩
  · exact ⟨m, h, hlo m (mem_of_sortedValues_getElem? sensors k m hm)⟩
  · have := hlo a (mem_of_sortedValues_getElem? sensors k a ha)
    have := hlo b (mem_of_sortedValues_getElem? sensors (k + 1) b hb)
    exact ⟨_, h, by linarith⟩

/-- C9: on a non-empty list every index `calculateMedian` reads (`n/2-1` and
`n/2` for even `n`, `n/2` for odd `n`) is in range and the median is defined;
on the empty list both reads of the even branch are out of range; and
`PredictMaintenance` returns its no-data error before the median is computed
on an empty list, so it never ends in the out-of-range panic. -/
theorem calculateMedian_index_safety (sensors : List Sensor) (hne : sensors ≠ []) :
    (((sortedValues sensors).length : Int) % 2 = 0 →
      ∃ a b, index (sortedValues sensors) (((sortedValues sensors).length : Int) / 2 - 1) = some a ∧
        index (sortedValues sensors) (((sortedValues sensors).length : Int) / 2) = some b) ∧
    (((sortedValues sensors).length : Int) % 2 ≠ 0 →
      ∃ m, index (sortedValues sensors) (((sortedValues sensors).length : Int) / 2) = some m) ∧
    (∃ m, calculateMedian sensors = some m) ∧
    (((sortedValues []).length : Int) % 2 = 0 ∧
      index (sortedValues []) (((sortedValues []).length : Int) / 2 - 1) = none ∧
      index (sortedValues []) (((sortedValues []).length : Int) / 2) = none ∧
      calculateMedian [] = none) ∧
    (∀ (st : Store) (env : PredictEnv) (equipmentId : String),
      (PredictMaintenance st env equipmentId).1 ≠ .panic ∧
      (findSensors st env.findErr equipmentId = .ok [] →
        (PredictMaintenance st env equipmentId).1 =
          .err ("no sensor data available for equipment " ++ equipmentId))) := by
  have hlen := length_sortedValues sensors
  refine ⟨?_, ?_, calculateMedian_isSome sensors hne, by decide, ?_⟩
  · intro heven
    rcases calculateMedian_cases sensors hne with ⟨k, hk, _⟩ | ⟨k, hk, a, b, ha, hb, _⟩
    · omega
    · have h1 : ((sortedValues sensors).length : Int) / 2 - 1 = (k : Int) := by omega
      have h2 : ((sortedValues sensors).length : Int) / 2 = ((k + 1 : Nat) : Int) := by omega
      rw [h1, h2, index_natCast, index_natCast]
      exact ⟨a, b, ha, hb⟩
  · intro hodd
    rcases calculateMedian_cases sensors hne with ⟨k, hk, m, hm, _⟩ | ⟨k, hk, _⟩
    · have h2 : ((sortedValues sensors).length : Int) / 2 = (k : Int) := by omega
      rw [h2, index_natCast]
      exact ⟨m, hm⟩
    · omega
  · intro st env equipmentId
    refine ⟨PredictMaintenance_ne_panic st env equipmentId, ?_⟩
    intro hfind
    simp [PredictMaintenance, hfind]

/-- Four readings: positions 1 and 2 of the sorted values are read, and the
empty list has no median. -/
theorem calculateMedian_index_safety_witness :
    index (sortedValues (readings "pump" [95, 60, 90, 75])) 1 = some 75 ∧
    index (sortedValues (readings "pump" [95, 60, 90, 75])) 2 = some 90 ∧
    (∃ m, calculateMedian (readings "pump" [95, 60, 90, 75]) = some m) ∧
    calculateMedian [] = none := by
  have h := calculateMedian_index_safety (readings "pump" [95, 60, 90, 75]) (by simp [readings])
  exact ⟨by decide, by decide, h.2.2.1, h.2.2.2.1.2.2.2⟩

/-- C10: the median of a non-empty list lies between its smallest and its
largest reading value; so when the store yields these readings and no store
call fails, the probability is 0 if every reading is at most 70 and 0.8 if
every reading is strictly greater than 70. -/
theorem calculateMedian_between (sensors : List Sensor) (hne : sensors ≠ []) :
    (∃ m lo hi, calculateMedian sensors = some m ∧
      lo ∈ sensors.map Sensor.Value ∧ hi ∈ sensors.map Sensor.Value ∧
      (∀ v ∈ sensors.map Sensor.Value, lo ≤ v ∧ v ≤ hi) ∧ lo ≤ m ∧ m ≤ hi) ∧
    (∀ (st : Store) (env : PredictEnv) (equipmentId : String),
      findSensors st env.findErr equipmentId = .ok sensors → env.createErr = none →
      ((∀ s ∈ sensors, s.Value ≤ 70) →
        ∃ p st', PredictMaintenance st env equipmentId = (.ok p, st') ∧
          p.FailureProbability = 0) ∧
      ((∀ s ∈ sensors, 70 < s.Value) →
        ∃ p st', PredictMaintenance st env equipmentId = (.ok p, st') ∧
          p.FailureProbability = 0.8)) := by
  constructor
  · have hv : sensors.map Sensor.Value ≠ [] := by simpa using hne
    obtain ⟨lo, hlo, hi, hhi, hall⟩ := exists_min_max _ hv
    obtain ⟨m, hm, h1⟩ := calculateMedian_ge sensors hne lo (fun v hv => (hall v hv).1)
    obtain ⟨m', hm', h2⟩ := calculateMedian_le sensors hne hi (fun v hv => (hall v hv).2)
    have hmm : m' = m := by
      rw [hm] at hm'
      exact (Option.some.inj hm').symm
    subst hmm
    exact ⟨m', lo, hi, hm, hlo, hhi, hall, h1, h2⟩
  · intro st env equipmentId hfind hcreate
    constructor
    · intro hle
      obtain ⟨m, hm, h2⟩ := calculateMedian_le sensors hne 70 (by simpa using hle)
      refine ⟨_, _, PredictMaintenance_ok st env equipmentId sensors m hfind hne hm hcreate, ?_⟩
      simp [not_lt.mpr h2]
    · intro hgt
      obtain ⟨m, hm, h2⟩ := calculateMedian_gt sensors hne 70 (by simpa using hgt)
      refine ⟨_, _, PredictMaintenance_ok st env equipmentId sensors m hfind hne hm hcreate, ?_⟩
      simp [h2]

/-- The readings 60, 70 give probability 0 and the readings 75, 90 give 0.8. -/
theorem calculateMedian_between_witness :
    (∃ p st', PredictMaintenance (sensorStore (readings "pump" [60, 70])) quietEnv "pump"
        = (.ok p, st') ∧ p.FailureProbability = 0) ∧
    (∃ p st', PredictMaintenance (sensorStore (readings "pump" [75, 90])) quietEnv "pump"
        = (.ok p, st') ∧ p.FailureProbability = 0.8) := by
  constructor
  · exact ((calculateMedian_between (readings "pump" [60, 70]) (by simp [readings])).2
      (sensorStore (readings "pump" [60, 70])) quietEnv "pump"
      (by simp [findSensors, sensorStore, quietEnv, readings]) rfl).1
      (by simp [readings]; norm_num)
  · exact ((calculateMedian_between (readings "pump" [75, 90]) (by simp [readings])).2
      (sensorStore (readings "pump" [75, 90])) quietEnv "pump"
      (by simp [findSensors, sensorStore, quietEnv, readings]) rfl).2
      (by simp [readings]; norm_num)

/-! ## DeleteEquipmentData -/

/-- A response with status 200 comes from the last line of the handler: the
equipment was found, no row referenced it once its predictions and sensors
were deleted, and the three deletes are those of its ID. -/
theorem DeleteEquipmentData_ok_inv (st st' : Store) (env : DeleteEnv) (id : String)
    (r : Response) (h : DeleteEquipmentData st env id = (r, st')) (hstatus : r.status = 200) :
    (∃ e ∈ st.equipments, e.ID = id) ∧
    (st.maintenanceLogs.any (fun l => l.EquipmentID == id) = false) ∧
    st' = { equipments := st.equipments.filter (fun e => !(e.ID == id)),
            maintenanceLogs := st.maintenanceLogs,
            sensors := st.sensors.filter (fun s => !(s.EquipmentID == id)),
            predictions := st.predictions.filter (fun p => !(p.EquipmentID == id)) } := by
  unfold DeleteEquipmentData firstEquipment at h
  cases h1 : env.firstErr with
  | some e =>
    simp only [h1] at h
    split at h <;> simp only [Prod.mk.injEq] at h <;> obtain ⟨rfl, _⟩ := h <;> simp at hstatus
  | none =>
    cases hfind : st.equipments.find? (fun e => e.ID == id) with
    | none =>
      simp only [h1, hfind] at h
      simp only [if_true, Prod.mk.injEq] at h
      obtain ⟨rfl, _⟩ := h
      simp at hstatus
    | some equipment =>
      have hid : equipment.ID = id := by
        have := List.find?_some hfind
        simpa using this
      have hmem : equipment ∈ st.equipments := List.mem_of_find?_eq_some hfind
      simp only [h1, hfind] at h
      cases h2 : env.deletePredictionsErr with
      | some e =>
        simp only [h2, Prod.mk.injEq] at h
        obtain ⟨rfl, _⟩ := h
        simp at hstatus
      | none =>
        cases h3 : env.deleteSensorsErr with
        | some e =>
          simp only [h2, h3, Prod.mk.injEq] at h
          obtain ⟨rfl, _⟩ := h
          simp at hstatus
        | none =>
          simp only [h2, h3, hid] at h
          unfold deleteEquipment at h
          cases h4 : env.deleteEquipmentErr with
          | some e =>
            simp only [h4, Prod.mk.injEq] at h
            obtain ⟨rfl, _⟩ := h
            simp at hstatus
          | none =>
            simp only [h4] at h
            by_cases href : referenced
                { equipments := st.equipments, maintenanceLogs := st.maintenanceLogs,
                  sensors := st.sensors.filter (fun s => !(s.EquipmentID == id)),
                  predictions := st.predictions.filter (fun p => !(p.EquipmentID == id)) } id = true
            · simp only [href, if_true, Prod.mk.injEq] at h
              obtain ⟨rfl, _⟩ := h
              simp at hstatus
            · simp only [href, Prod.mk.injEq] at h
              obtain ⟨_, rfl⟩ := h
              refine ⟨⟨equipment, hmem, hid⟩, ?_, rfl⟩
              simp only [referenced, Bool.or_eq_true, not_or, Bool.not_eq_true] at href
              exact href.1.1

/-- C8: after `DeleteEquipmentData` answers 200 for an ID, the ID was that of a
stored equipment, the store holds no equipment with that ID and no sensor,
maintenance log or prediction with that `EquipmentID`, and every table is the
former one without the rows of that ID, the rows of other equipment being kept
as they were. -/
theorem DeleteEquipmentData_cascade (st st' : Store) (env : DeleteEnv) (id : String)
    (r : Response) (h : DeleteEquipmentData st env id = (r, st')) (hstatus : r.status = 200) :
    (∃ e ∈ st.equipments, e.ID = id) ∧
    (∀ e ∈ st'.equipments, e.ID ≠ id) ∧
    (∀ s ∈ st'.sensors, s.EquipmentID ≠ id) ∧
    (∀ l ∈ st'.maintenanceLogs, l.EquipmentID ≠ id) ∧
    (∀ p ∈ st'.predictions, p.EquipmentID ≠ id) ∧
    st'.equipments = st.equipments.filter (fun e => decide (e.ID ≠ id)) ∧
    st'.sensors = st.sensors.filter (fun s => decide (s.EquipmentID ≠ id)) ∧
    st'.maintenanceLogs = st.maintenanceLogs.filter (fun l => decide (l.EquipmentID ≠ id)) ∧
    st'.predictions = st.predictions.filter (fun p => decide (p.EquipmentID ≠ id)) := by
  obtain ⟨hex, hlogs, rfl⟩ := DeleteEquipmentData_ok_inv st st' env id r h hstatus
  have hlogs' : ∀ l ∈ st.maintenanceLogs, l.EquipmentID ≠ id := by
    intro l hl heq
    have : st.maintenanceLogs.any (fun l => l.EquipmentID == id) = true :=
      List.any_eq_true.mpr ⟨l, hl, by simp [heq]⟩
    rw [hlogs] at this
    exact Bool.false_ne_true this
  refine ⟨hex, ?_, ?_, hlogs', ?_, ?_, ?_, ?_, ?_⟩
  · intro e he
    simpa using (List.mem_filter.mp he).2
  · intro s hs
    simpa using (List.mem_filter.mp hs).2
  · intro p hp
    simpa using (List.mem_filter.mp hp).2
  · exact List.filter_congr (fun e _ => by by_cases hx : e.ID = id <;> simp [hx])
  · exact List.filter_congr (fun s _ => by by_cases hx : s.EquipmentID = id <;> simp [hx])
  · symm
    rw [List.filter_eq_self]
    intro l hl
    simpa using hlogs' l hl
  · exact List.filter_congr (fun p _ => by by_cases hx : p.EquipmentID = id <;> simp [hx])

/-- The equipment `e-1` of `plantStore` is deleted with its sensor and its
prediction, and the rows of `e-2` stay. -/
theorem DeleteEquipmentData_plantStore :
    DeleteEquipmentData plantStore noDeleteErr "e-1" =
      ({ status := 200, body := .message "Equipment deleted successfully" },
       { equipments := [{ ID := "e-2", Name := "Fan", Type_ := "cooling", CreatedAt := 1, UpdatedAt := 1 }],
         maintenanceLogs := [{ ID := "m-2", EquipmentID := "e-2", Date := 2, Description := "new belt" }],
         sensors := [{ ID := "s-2", EquipmentID := "e-2", Type_ := "temperature", Value := 40,
                       CreatedAt := 3, UpdatedAt := 3 }],
         predictions := [] }) := by
  simp [DeleteEquipmentData, firstEquipment, deleteEquipment, referenced, plantStore, noDeleteErr]

/-- Deleting `e-1` from `plantStore` succeeds and leaves no row of `e-1`. -/
theorem DeleteEquipmentData_cascade_witness :
    (DeleteEquipmentData plantStore noDeleteErr "e-1").1.status = 200 ∧
    (∀ l ∈ (DeleteEquipmentData plantStore noDeleteErr "e-1").2.maintenanceLogs,
      l.EquipmentID ≠ "e-1") ∧
    (DeleteEquipmentData plantStore noDeleteErr "e-1").2.sensors =
      plantStore.sensors.filter (fun s => decide (s.EquipmentID ≠ "e-1")) := by
  have h := DeleteEquipmentData_cascade plantStore _ noDeleteErr "e-1" _
    DeleteEquipmentData_plantStore rfl
  rw [DeleteEquipmentData_plantStore]
  exact ⟨rfl, h.2.2.2.1, h.2.2.2.2.2.2.1⟩

/-- On `loggedStore`, where `e-1` has a maintenance log, the handler deletes
the prediction and the sensor of `e-1`, is refused the delete of the equipment
and answers 500: the equipment and its log stay. -/
theorem DeleteEquipmentData_loggedStore :
    DeleteEquipmentData loggedStore noDeleteErr "e-1" =
      ({ status := 500, body := .message foreignKeyError },
       { loggedStore with sensors := [], predictions := [] }) := by
  simp [DeleteEquipmentData, firstEquipment, deleteEquipment, referenced, loggedStore, noDeleteErr]

end PredictiveMaintenance
